import Mathlib

/-
Verification of the Se3SpaceMouse teleoperation device layer
(source/isaaclab/isaaclab/devices/spacemouse/se3_spacemouse.py).

The device layer is a single-threaded polling loop: each poll tick reads a
raw device sample (six axes and two buttons), runs the button handling of
`_listen_for_updates`, and then recomputes the twist state through
`_process_twist_command`.  `advance` and `reset` are the public methods.

Scalars are modelled as exact rationals; three-component numpy arrays become
the `Vec3` structure.  The base class `base_spacemouse.py` is not part of the
sources, so its pieces (`_read_mouse_state`, `_transform_state_to_twist`,
the timer) are modelled from the specification where a claim needs them; the
raw device sample is an explicit input of the poll-tick function.
-/

namespace SpaceMouse

/-- A three-component vector of exact scalars, modelling a numpy array of
shape (3,). -/
structure Vec3 where
  x : ℚ
  y : ℚ
  z : ℚ
deriving DecidableEq, Repr

/-- The zero vector, modelling `np.zeros(3)`. -/
def Vec3.zero : Vec3 := ⟨0, 0, 0⟩

/-- Scalar multiplication of a `Vec3`, modelling numpy scalar-times-array
broadcasting. -/
def Vec3.smul (c : ℚ) (v : Vec3) : Vec3 := ⟨c * v.x, c * v.y, c * v.z⟩

/-- Raw device sample delivered once per poll tick: six axes (three
translation, three rotation, device-native units) and the two buttons
(index 0 is left, index 1 is right).  This mirrors the `RawDeviceState`
of the data model; the sample is supplied by the external device layer. -/
structure RawDeviceState where
  axes0 : ℚ
  axes1 : ℚ
  axes2 : ℚ
  axes3 : ℚ
  axes4 : ℚ
  axes5 : ℚ
  buttons0 : Bool
  buttons1 : Bool
deriving DecidableEq, Repr

/-- The mutable instance fields of `Se3SpaceMouse`: the two sensitivities
stored in `__init__`, the two flags, and the delta pose.  The polling
interval only drives the external timer and carries no state used by any
claim, so it is not a field. -/
structure Se3SpaceMouse where
  pos_sensitivity : ℚ
  rot_sensitivity : ℚ
  read_rotation : Bool
  close_gripper : Bool
  delta_pos : Vec3
  delta_rot : Vec3
deriving DecidableEq, Repr

/-- The state built by `__init__`: flags false, delta pose zero, default
sensitivities 0.4 and 0.8. -/
def Se3SpaceMouse.init (pos_sensitivity rot_sensitivity : ℚ) : Se3SpaceMouse :=
  { pos_sensitivity := pos_sensitivity
    rot_sensitivity := rot_sensitivity
    read_rotation := false
    close_gripper := false
    delta_pos := Vec3.zero
    delta_rot := Vec3.zero }

/-- The `reset` method: sets `_close_gripper` to false and both deltas to
zero, leaving the sensitivities and `_read_rotation` untouched.  It is a
total function: no failure path exists in the source. -/
def reset (s : Se3SpaceMouse) : Se3SpaceMouse :=
  { s with
    close_gripper := false
    delta_pos := Vec3.zero
    delta_rot := Vec3.zero }

/-- Modelled from the spec: `_transform_state_to_twist` lives in the base
class `base_spacemouse.py`, which is not among the sources.  The spec states
that every tick recomputes `delta_pos = pos_sensitivity * raw.axes[0:3]` and
`delta_rot = rot_sensitivity * raw.axes[3:6]`, so the twist handed to
`_process_twist_command` is the raw six-axis vector, split here into its
translation and rotation halves. -/
def transform_state_to_twist (raw : RawDeviceState) : Vec3 × Vec3 :=
  (⟨raw.axes0, raw.axes1, raw.axes2⟩, ⟨raw.axes3, raw.axes4, raw.axes5⟩)

/-- The `_process_twist_command` method: overwrites `_delta_pos` with
`_pos_sensitivity * twist[:3]` and `_delta_rot` with
`_rot_sensitivity * twist[3:]`. -/
def process_twist_command (s : Se3SpaceMouse) (twist : Vec3 × Vec3) : Se3SpaceMouse :=
  { s with
    delta_pos := Vec3.smul s.pos_sensitivity twist.1
    delta_rot := Vec3.smul s.rot_sensitivity twist.2 }

/-- The `_additional_callbacks` dictionary of the base class, restricted to
the two keys the source ever looks up ("L" and "R").  A field holds `some f`
when a callback is registered under that key. -/
structure AdditionalCallbacks where
  cbL : Option (Se3SpaceMouse → Se3SpaceMouse)
  cbR : Option (Se3SpaceMouse → Se3SpaceMouse)

/-- The empty callback dictionary. -/
def AdditionalCallbacks.empty : AdditionalCallbacks := ⟨none, none⟩

/-- Mirrors the callback block of `_listen_for_updates`: the source guards
with `if "L" in self._additional_callbacks:` and then writes the bare
expression `self._additional_callbacks["L"]` — the stored callback is looked
up but, without a call, never applied, so the state passes through unchanged
in both branches. -/
def run_additional_callback (cb : Option (Se3SpaceMouse → Se3SpaceMouse))
    (s : Se3SpaceMouse) : Se3SpaceMouse :=
  match cb with
  | some _ => s
  | none => s

/-- One poll tick: the body of `_listen_for_updates` after the timer restart
and the raw-state read (the freshly read `self._state` is the `raw`
argument).  Left-only press toggles `_close_gripper` (and looks up the "L"
callback); right-only press calls `reset` (and looks up the "R" callback);
both pressed toggles `_read_rotation`; then the state is always passed
through `_process_twist_command` on the twist of the raw sample. -/
def listen_for_updates (cbs : AdditionalCallbacks) (s : Se3SpaceMouse)
    (raw : RawDeviceState) : Se3SpaceMouse :=
  let s1 :=
    if raw.buttons0 && !raw.buttons1 then
      run_additional_callback cbs.cbL { s with close_gripper := !s.close_gripper }
    else if raw.buttons1 && !raw.buttons0 then
      run_additional_callback cbs.cbR (reset s)
    else if raw.buttons0 && raw.buttons1 then
      { s with read_rotation := !s.read_rotation }
    else
      s
  process_twist_command s1 (transform_state_to_twist raw)

/-- The `advance` method, returning the pair of the pose delta and the
gripper flag.  The six-vector `np.concatenate([delta_pos, rot_vec])` is
modelled as the pair of its translation and rotation halves.  The
Euler-XYZ-to-rotation-vector conversion is performed by the external scipy
library (`Rotation.from_euler("XYZ", r).as_rotvec()`), which is not part of
the sources; it enters as the explicit function argument
`rotvec_from_euler`. -/
def advance (rotvec_from_euler : Vec3 → Vec3) (s : Se3SpaceMouse) :
    (Vec3 × Vec3) × Bool :=
  ((s.delta_pos, rotvec_from_euler s.delta_rot), s.close_gripper)

/-- The `advance` method in state-passing form, making the frame explicit:
the returned second component is the instance state after the call.  The
body of `advance` contains no assignment to any instance field, so the state
is returned as received. -/
def advance_mut (rotvec_from_euler : Vec3 → Vec3) (s : Se3SpaceMouse) :
    ((Vec3 × Vec3) × Bool) × Se3SpaceMouse :=
  let rot_vec := rotvec_from_euler s.delta_rot
  (((s.delta_pos, rot_vec), s.close_gripper), s)

/-- Concrete initial state with the default sensitivities 0.4 and 0.8. -/
def s0 : Se3SpaceMouse := Se3SpaceMouse.init (2/5) (4/5)

/-- Raw sample: all axes zero, left button pressed, right button not. -/
def rawLeftOnly : RawDeviceState := ⟨0, 0, 0, 0, 0, 0, true, false⟩

/-- Raw sample: all axes zero, both buttons released. -/
def rawRelease : RawDeviceState := ⟨0, 0, 0, 0, 0, 0, false, false⟩

/-- Raw sample: first axis one, others zero, right button pressed only. -/
def rawRightAxis1 : RawDeviceState := ⟨1, 0, 0, 0, 0, 0, false, true⟩

/-- The lookup of a registered callback never changes the state. -/
theorem run_additional_callback_eq (cb : Option (Se3SpaceMouse → Se3SpaceMouse))
    (s : Se3SpaceMouse) : run_additional_callback cb s = s := by
  cases cb <;> rfl

/-- A poll tick ends on the gripper flag dictated by the elif chain: toggled
on a left-only press, forced false by the reset on a right-only press, and
untouched otherwise; `_process_twist_command` never writes it. -/
theorem tick_close_gripper (cbs : AdditionalCallbacks) (s : Se3SpaceMouse)
    (raw : RawDeviceState) :
    (listen_for_updates cbs s raw).close_gripper =
      if raw.buttons0 && !raw.buttons1 then !s.close_gripper
      else if raw.buttons1 && !raw.buttons0 then false
      else s.close_gripper := by
  simp only [listen_for_updates, process_twist_command, run_additional_callback_eq]
  split
  · rfl
  · split
    · rfl
    · split <;> rfl

/-- A poll tick toggles `read_rotation` exactly when both buttons are
pressed, and leaves it untouched otherwise. -/
theorem tick_read_rotation (cbs : AdditionalCallbacks) (s : Se3SpaceMouse)
    (raw : RawDeviceState) :
    (listen_for_updates cbs s raw).read_rotation =
      if raw.buttons0 && raw.buttons1 then !s.read_rotation
      else s.read_rotation := by
  simp only [listen_for_updates, process_twist_command, run_additional_callback_eq]
  rcases h0 : raw.buttons0 <;> rcases h1 : raw.buttons1 <;> simp [reset]

/-- No branch of the tick changes the position sensitivity. -/
theorem tick_pos_sensitivity (cbs : AdditionalCallbacks) (s : Se3SpaceMouse)
    (raw : RawDeviceState) :
    (listen_for_updates cbs s raw).pos_sensitivity = s.pos_sensitivity := by
  simp only [listen_for_updates, process_twist_command, run_additional_callback_eq]
  split
  · rfl
  · split
    · rfl
    · split <;> rfl

/-- No branch of the tick changes the rotation sensitivity. -/
theorem tick_rot_sensitivity (cbs : AdditionalCallbacks) (s : Se3SpaceMouse)
    (raw : RawDeviceState) :
    (listen_for_updates cbs s raw).rot_sensitivity = s.rot_sensitivity := by
  simp only [listen_for_updates, process_twist_command, run_additional_callback_eq]
  split
  · rfl
  · split
    · rfl
    · split <;> rfl

/-- Every poll tick ends with `delta_pos` overwritten by the sensitivity
scaling of the first three raw axes, whatever the button branch did. -/
theorem tick_delta_pos (cbs : AdditionalCallbacks) (s : Se3SpaceMouse)
    (raw : RawDeviceState) :
    (listen_for_updates cbs s raw).delta_pos =
      Vec3.smul s.pos_sensitivity ⟨raw.axes0, raw.axes1, raw.axes2⟩ := by
  simp only [listen_for_updates, process_twist_command, transform_state_to_twist,
    run_additional_callback_eq]
  split
  · rfl
  · split
    · rfl
    · split <;> rfl

/-- Every poll tick ends with `delta_rot` overwritten by the sensitivity
scaling of the last three raw axes, whatever the button branch did. -/
theorem tick_delta_rot (cbs : AdditionalCallbacks) (s : Se3SpaceMouse)
    (raw : RawDeviceState) :
    (listen_for_updates cbs s raw).delta_rot =
      Vec3.smul s.rot_sensitivity ⟨raw.axes3, raw.axes4, raw.axes5⟩ := by
  simp only [listen_for_updates, process_twist_command, transform_state_to_twist,
    run_additional_callback_eq]
  split
  · rfl
  · split
    · rfl
    · split <;> rfl

/-- C1 counterexample: the toggle is level-, not edge-, triggered.  From the
initial state, a left-only tick with zero axes flips `close_gripper` to
true, and a second identical tick with the left button still held flips it
back to false — a repeated left-only tick does re-toggle, contrary to the
claim that the flag flips only on a rising edge. -/
theorem c1_counterexample :
    rawLeftOnly.buttons0 = true ∧ rawLeftOnly.buttons1 = false ∧
    s0.close_gripper = false ∧
    (listen_for_updates AdditionalCallbacks.empty s0 rawLeftOnly).close_gripper = true ∧
    (listen_for_updates AdditionalCallbacks.empty
        (listen_for_updates AdditionalCallbacks.empty s0 rawLeftOnly)
        rawLeftOnly).close_gripper = false := by
  decide

/-- C1 amended: `close_gripper` flips on every poll tick in which the left
button is pressed and the right is not (level-triggered).  A left-only press
tick followed by a tick with both buttons released toggles it exactly once,
but a further tick with the left button still held toggles it again. -/
theorem c1_close_gripper_level_toggle (cbs : AdditionalCallbacks)
    (s : Se3SpaceMouse) (r1 r2 : RawDeviceState)
    (h0 : r1.buttons0 = true) (h1 : r1.buttons1 = false)
    (h2 : r2.buttons0 = false) (h3 : r2.buttons1 = false) :
    (listen_for_updates cbs s r1).close_gripper = !s.close_gripper ∧
    (listen_for_updates cbs (listen_for_updates cbs s r1) r2).close_gripper
      = !s.close_gripper ∧
    (listen_for_updates cbs (listen_for_updates cbs s r1) r1).close_gripper
      = s.close_gripper := by
  simp [tick_close_gripper, h0, h1, h2, h3]

/-- C1 witness: the amended statement at the initial state, a concrete
left-only sample and a concrete release sample. -/
theorem c1_witness :
    (listen_for_updates AdditionalCallbacks.empty s0 rawLeftOnly).close_gripper
      = !s0.close_gripper ∧
    (listen_for_updates AdditionalCallbacks.empty
        (listen_for_updates AdditionalCallbacks.empty s0 rawLeftOnly)
        rawRelease).close_gripper = !s0.close_gripper ∧
    (listen_for_updates AdditionalCallbacks.empty
        (listen_for_updates AdditionalCallbacks.empty s0 rawLeftOnly)
        rawLeftOnly).close_gripper = s0.close_gripper :=
  c1_close_gripper_level_toggle AdditionalCallbacks.empty s0 rawLeftOnly rawRelease
    rfl rfl rfl rfl

/-- C2 counterexample: a right-only tick does call `reset`, but the tick
then runs `_process_twist_command`, which overwrites the deltas with the
sensitivity-scaled raw axes.  With first axis 1 and position sensitivity
0.4, the tick ends with `delta_pos = (0.4, 0, 0)`, not the zero vector. -/
theorem c2_counterexample :
    rawRightAxis1.buttons1 = true ∧ rawRightAxis1.buttons0 = false ∧
    (listen_for_updates AdditionalCallbacks.empty s0 rawRightAxis1).delta_pos
      = ⟨2/5, 0, 0⟩ ∧
    (listen_for_updates AdditionalCallbacks.empty s0 rawRightAxis1).delta_pos
      ≠ Vec3.zero := by
  refine ⟨rfl, rfl, ?_, ?_⟩ <;>
    simp [tick_delta_pos, s0, Se3SpaceMouse.init, rawRightAxis1, Vec3.smul, Vec3.zero]

/-- C2 amended: after a right-only tick, `close_gripper` is false, and the
deltas hold the sensitivity-scaled raw axes of that tick (so they are the
zero vectors exactly when the raw axes of the tick are all zero). -/
theorem c2_right_only_reset (cbs : AdditionalCallbacks) (s : Se3SpaceMouse)
    (raw : RawDeviceState) (h1 : raw.buttons1 = true) (h0 : raw.buttons0 = false) :
    (listen_for_updates cbs s raw).close_gripper = false ∧
    (listen_for_updates cbs s raw).delta_pos
      = Vec3.smul s.pos_sensitivity ⟨raw.axes0, raw.axes1, raw.axes2⟩ ∧
    (listen_for_updates cbs s raw).delta_rot
      = Vec3.smul s.rot_sensitivity ⟨raw.axes3, raw.axes4, raw.axes5⟩ := by
  refine ⟨?_, tick_delta_pos cbs s raw, tick_delta_rot cbs s raw⟩
  simp [tick_close_gripper, h0, h1]

/-- C2 witness: the amended statement at the initial state and the concrete
right-only sample with first axis 1. -/
theorem c2_witness :
    (listen_for_updates AdditionalCallbacks.empty s0 rawRightAxis1).close_gripper
      = false ∧
    (listen_for_updates AdditionalCallbacks.empty s0 rawRightAxis1).delta_pos
      = Vec3.smul s0.pos_sensitivity ⟨1, 0, 0⟩ ∧
    (listen_for_updates AdditionalCallbacks.empty s0 rawRightAxis1).delta_rot
      = Vec3.smul s0.rot_sensitivity ⟨0, 0, 0⟩ :=
  c2_right_only_reset AdditionalCallbacks.empty s0 rawRightAxis1 rfl rfl

/-- C3: every poll tick overwrites `delta_pos` with `pos_sensitivity` times
the first three raw axes and `delta_rot` with `rot_sensitivity` times the
last three, for any prior state and any callbacks — the state is replaced,
not accumulated; in particular, for raw axes (1,0,0,0,0,0) and position
sensitivity 0.4 the tick ends with `delta_pos = (0.4, 0, 0)`. -/
theorem c3_tick_overwrites_deltas :
    (∀ (cbs : AdditionalCallbacks) (s : Se3SpaceMouse) (raw : RawDeviceState),
      (listen_for_updates cbs s raw).delta_pos
        = Vec3.smul s.pos_sensitivity ⟨raw.axes0, raw.axes1, raw.axes2⟩ ∧
      (listen_for_updates cbs s raw).delta_rot
        = Vec3.smul s.rot_sensitivity ⟨raw.axes3, raw.axes4, raw.axes5⟩) ∧
    (listen_for_updates AdditionalCallbacks.empty s0
        ⟨1, 0, 0, 0, 0, 0, false, false⟩).delta_pos = ⟨2/5, 0, 0⟩ := by
  refine ⟨fun cbs s raw => ⟨tick_delta_pos cbs s raw, tick_delta_rot cbs s raw⟩, ?_⟩
  simp [tick_delta_pos, s0, Se3SpaceMouse.init, Vec3.smul]

/-- C5: `reset` clears the gripper flag and both deltas; being a total
function of the state, it has no failure path. -/
theorem c5_reset_clears (s : Se3SpaceMouse) :
    (reset s).close_gripper = false ∧
    (reset s).delta_pos = Vec3.zero ∧
    (reset s).delta_rot = Vec3.zero :=
  ⟨rfl, rfl, rfl⟩

/-- C6: `advance` is a pure read — in state-passing form the state it
returns is exactly the state it received, so every field (deltas, flags,
sensitivities) is unchanged. -/
theorem c6_advance_pure (rotvec_from_euler : Vec3 → Vec3) (s : Se3SpaceMouse) :
    (advance_mut rotvec_from_euler s).2 = s :=
  rfl

/-- C7 counterexample: a tick whose raw axes are all zero but whose left
button is pressed (right released) flips `close_gripper`, so after such a
tick the gripper flag returned by `advance` is not unchanged from its value
before the tick. -/
theorem c7_counterexample :
    rawLeftOnly.axes0 = 0 ∧ rawLeftOnly.axes1 = 0 ∧ rawLeftOnly.axes2 = 0 ∧
    rawLeftOnly.axes3 = 0 ∧ rawLeftOnly.axes4 = 0 ∧ rawLeftOnly.axes5 = 0 ∧
    s0.close_gripper = false ∧
    (advance (fun v => v)
        (listen_for_updates AdditionalCallbacks.empty s0 rawLeftOnly)).2 = true := by
  decide

/-- C7 amended: after a poll tick whose raw axes are all zero, `advance`
returns the zero pose delta (for any Euler conversion sending zero to zero,
as the identity rotation does); `close_gripper` is moreover unchanged
whenever the two buttons agree on that tick, while a left-only or right-only
press may still change it. -/
theorem c7_zero_axes (rotvec_from_euler : Vec3 → Vec3) (cbs : AdditionalCallbacks)
    (s : Se3SpaceMouse) (raw : RawDeviceState)
    (hconv : rotvec_from_euler Vec3.zero = Vec3.zero)
    (ha0 : raw.axes0 = 0) (ha1 : raw.axes1 = 0) (ha2 : raw.axes2 = 0)
    (ha3 : raw.axes3 = 0) (ha4 : raw.axes4 = 0) (ha5 : raw.axes5 = 0) :
    (advance rotvec_from_euler (listen_for_updates cbs s raw)).1.1 = Vec3.zero ∧
    (advance rotvec_from_euler (listen_for_updates cbs s raw)).1.2 = Vec3.zero ∧
    (raw.buttons0 = raw.buttons1 →
      (advance rotvec_from_euler (listen_for_updates cbs s raw)).2
        = s.close_gripper) := by
  have hpos : (listen_for_updates cbs s raw).delta_pos = Vec3.zero := by
    rw [tick_delta_pos]
    simp [Vec3.smul, Vec3.zero, ha0, ha1, ha2]
  have hrot : (listen_for_updates cbs s raw).delta_rot = Vec3.zero := by
    rw [tick_delta_rot]
    simp [Vec3.smul, Vec3.zero, ha3, ha4, ha5]
  refine ⟨?_, ?_, fun hb => ?_⟩
  · simpa [advance] using hpos
  · simp [advance, hrot, hconv]
  · simp only [advance]
    rw [tick_close_gripper]
    rcases h0 : raw.buttons0 <;> rcases h1 : raw.buttons1 <;> simp_all

/-- C7 witness: the amended statement with the identity conversion, the
initial state and the all-zero sample with both buttons released. -/
theorem c7_witness :
    (advance (fun v => v)
        (listen_for_updates AdditionalCallbacks.empty s0 rawRelease)).1.1
      = Vec3.zero ∧
    (advance (fun v => v)
        (listen_for_updates AdditionalCallbacks.empty s0 rawRelease)).1.2
      = Vec3.zero ∧
    (rawRelease.buttons0 = rawRelease.buttons1 →
      (advance (fun v => v)
          (listen_for_updates AdditionalCallbacks.empty s0 rawRelease)).2
        = s0.close_gripper) :=
  c7_zero_axes (fun v => v) AdditionalCallbacks.empty s0 rawRelease
    rfl rfl rfl rfl rfl rfl rfl

/-- C8: a poll tick with both buttons pressed toggles `read_rotation`, and
on that tick `close_gripper` is not toggled and no reset occurs — the elif
chain makes the three button actions mutually exclusive. -/
theorem c8_both_pressed (cbs : AdditionalCallbacks) (s : Se3SpaceMouse)
    (raw : RawDeviceState) (h0 : raw.buttons0 = true) (h1 : raw.buttons1 = true) :
    (listen_for_updates cbs s raw).read_rotation = !s.read_rotation ∧
    (listen_for_updates cbs s raw).close_gripper = s.close_gripper := by
  constructor
  · rw [tick_read_rotation]
    simp [h0, h1]
  · rw [tick_close_gripper]
    simp [h0, h1]

/-- Raw sample: all axes zero, both buttons pressed. -/
def rawBoth : RawDeviceState := ⟨0, 0, 0, 0, 0, 0, true, true⟩

/-- C8 witness: the statement at the initial state and the concrete sample
with both buttons pressed. -/
theorem c8_witness :
    (listen_for_updates AdditionalCallbacks.empty s0 rawBoth).read_rotation
      = !s0.read_rotation ∧
    (listen_for_updates AdditionalCallbacks.empty s0 rawBoth).close_gripper
      = s0.close_gripper :=
  c8_both_pressed AdditionalCallbacks.empty s0 rawBoth rfl rfl

/-- C9: two states that agree on every field except `read_rotation` give the
same result from `advance` — the flag is read by no part of the emitted
command. -/
theorem c9_read_rotation_no_effect (rotvec_from_euler : Vec3 → Vec3)
    (s : Se3SpaceMouse) (b : Bool) :
    advance rotvec_from_euler { s with read_rotation := b }
      = advance rotvec_from_euler s :=
  rfl

/-- C10: on a left-only or right-only press tick, the state after the tick
is the same whether or not callbacks are registered — the source looks the
callback up but never calls it, so registered callbacks are never
executed. -/
theorem c10_callbacks_never_executed (cbs : AdditionalCallbacks)
    (s : Se3SpaceMouse) (raw : RawDeviceState)
    (h : (raw.buttons0 = true ∧ raw.buttons1 = false) ∨
      (raw.buttons1 = true ∧ raw.buttons0 = false)) :
    listen_for_updates cbs s raw
      = listen_for_updates AdditionalCallbacks.empty s raw := by
  simp only [listen_for_updates, run_additional_callback_eq]

/-- Concrete callback dictionary with a callback registered under each of
the two keys. -/
def cbsSample : AdditionalCallbacks :=
  ⟨some (fun t => { t with close_gripper := true }), some reset⟩

/-- C10 witness: the statement at the concrete registered callbacks, the
initial state and the left-only sample. -/
theorem c10_witness :
    listen_for_updates cbsSample s0 rawLeftOnly
      = listen_for_updates AdditionalCallbacks.empty s0 rawLeftOnly :=
  c10_callbacks_never_executed cbsSample s0 rawLeftOnly (Or.inl ⟨rfl, rfl⟩)

end SpaceMouse
